import Mathlib

/-
Verification of the interactive chart engine's range model, selection commit,
realtime merge and export control flow.

The embedding follows the TypeScript sources:
* `src/components/chart/utils/calculateRange.ts` — `calculateNewRange`,
  `clampRange`, `createInitialRange`, constant `MIN_ZOOM_ITEMS`;
* the interactive-chart module holding `calculatePan` (constants `ZOOM_FACTOR`,
  `MIN_ZOOM_POINTS`, `DRAG_THRESHOLD`) and the export hook `executeExport`;
* `src/components/chart/context/ChartContext.tsx` — `commitSelection`;
* `src/features/chart/hooks/useChartData.ts` — `mergeRealtimePoint`.

JavaScript numbers used as indices are modelled as `ℤ`; fractional quantities
(zoom amounts, focus percentages, drag deltas) as `ℚ`.  `Math.floor`, `Math.ceil`
and `Math.trunc` become `Int.floor`, `Int.ceil` and truncation toward zero.
-/

/-- Visible index window, `RangeState` of `src/components/chart/types.ts`. -/
structure RangeState where
  startIndex : ℤ
  endIndex : ℤ
deriving DecidableEq

/-- `MIN_ZOOM_ITEMS` of `calculateRange.ts`. -/
def MIN_ZOOM_ITEMS : ℤ := 5

/-- `calculateNewRange` of `calculateRange.ts`: focus-preserving zoom.
`zoomAmount > 0` shrinks the window; the two rejection guards compare
`endIndex - startIndex` against `MIN_ZOOM_ITEMS`. -/
def calculateNewRange (currentRange : RangeState) (totalLength : ℤ)
    (zoomAmount focusPercentage : ℚ) : RangeState :=
  if currentRange.endIndex - currentRange.startIndex ≤ MIN_ZOOM_ITEMS ∧ 0 < zoomAmount then
    currentRange
  else
    let newStart := max 0 (currentRange.startIndex + ⌊zoomAmount * focusPercentage⌋)
    let newEnd :=
      min (totalLength - 1) (currentRange.endIndex - ⌈zoomAmount * (1 - focusPercentage)⌉)
    if newEnd - MIN_ZOOM_ITEMS ≤ newStart then currentRange
    else ⟨newStart, newEnd⟩

/-- `clampRange` of `calculateRange.ts`: both bounds are upper-clamped to
`max 0 (dataLength - 1)`; there is no lower clamp in the source. -/
def clampRange (range : RangeState) (dataLength : ℤ) : RangeState :=
  let maxEnd := max 0 (dataLength - 1)
  ⟨min range.startIndex maxEnd, min range.endIndex maxEnd⟩

/-- `createInitialRange` of `calculateRange.ts`. -/
def createInitialRange (dataLength : ℤ) : RangeState :=
  ⟨0, max 0 (dataLength - 1)⟩

/-- `DRAG_THRESHOLD` of the interactive-chart module (pixels per index step). -/
def DRAG_THRESHOLD : ℚ := 15

/-- `Math.trunc`: truncation toward zero. -/
def jsTrunc (q : ℚ) : ℤ := if 0 ≤ q then ⌊q⌋ else ⌈q⌉

/-- The `steps` computation of `calculatePan`:
`Math.trunc(accumulatedDelta / DRAG_THRESHOLD)`. -/
def panSteps (accumulatedDelta : ℚ) : ℤ := jsTrunc (accumulatedDelta / DRAG_THRESHOLD)

/-- `calculatePan` of the interactive-chart module.  Returns `none` when the
accumulated delta yields zero whole steps (the source returns `null`);
otherwise shifts both bounds by `-steps` and applies the two sequential edge
guards, returning the new range together with the unconsumed remainder. -/
def calculatePan (currentRange : ℤ × ℤ) (accumulatedDelta : ℚ) (dataLength : ℤ) :
    Option ((ℤ × ℤ) × ℚ) :=
  let steps := panSteps accumulatedDelta
  if steps = 0 then none
  else
    let moveIndexCount := -steps
    let windowSize := currentRange.2 - currentRange.1
    let maxIndex := dataLength - 1
    let shifted := (currentRange.1 + moveIndexCount, currentRange.2 + moveIndexCount)
    let leftClamped := if shifted.1 < 0 then ((0 : ℤ), windowSize) else shifted
    let result := if maxIndex < leftClamped.2 then (maxIndex - windowSize, maxIndex) else leftClamped
    some (result, accumulatedDelta - (steps : ℚ) * DRAG_THRESHOLD)

/-- One gesture-driven range operation: a wheel/pinch zoom
(`calculateNewRange`) or a drag pan (`calculatePan`). -/
inductive RangeOp
  | zoom (zoomAmount focusPercentage : ℚ)
  | pan (accumulatedDelta : ℚ)

/-- Applies one operation to the current range, as the hooks do: a pan that
returns `null` leaves the range unchanged. -/
def applyRangeOp (totalLength : ℤ) (r : RangeState) : RangeOp → RangeState
  | RangeOp.zoom a f => calculateNewRange r totalLength a f
  | RangeOp.pan d =>
    match calculatePan (r.startIndex, r.endIndex) d totalLength with
    | none => r
    | some (p, _) => ⟨p.1, p.2⟩

/-- Applies a finite sequence of range operations in order. -/
def applyRangeOps (totalLength : ℤ) (ops : List RangeOp) (r : RangeState) : RangeState :=
  ops.foldl (applyRangeOp totalLength) r

/-- The P1 bounds invariant of the spec: in-bounds, ordered, and at least
`MIN_ZOOM_ITEMS` visible points. -/
def rangeInvariant (totalLength : ℤ) (r : RangeState) : Prop :=
  0 ≤ r.startIndex ∧ r.startIndex ≤ r.endIndex ∧ r.endIndex ≤ totalLength - 1 ∧
    MIN_ZOOM_ITEMS ≤ r.endIndex - r.startIndex + 1

/-- The focus percentage of a zoom operation lies in `[0, 1]`; pans are
unconstrained. -/
def opFocusInRange : RangeOp → Prop
  | RangeOp.zoom _ f => 0 ≤ f ∧ f ≤ 1
  | RangeOp.pan _ => True

/-- Selection state of `src/components/chart/types.ts`: `startX`/`endX` are
`string | null` anchor labels. -/
structure SelectionState where
  startX : Option String
  endX : Option String
  isSelecting : Bool
deriving DecidableEq

/-- JavaScript truthiness of a `string | null`: `null` and `""` are falsy. -/
def truthyLabel : Option String → Bool
  | none => false
  | some s => !(s == "")

/-- The selection value written back after every commit:
`{ startX: null, endX: null, isSelecting: false }`. -/
def clearedSelection : SelectionState := ⟨none, none, false⟩

/-- `data.findIndex((item) => item[xDataKey] === x)`, with the dataset
abstracted to its list of x labels; `none` models the `-1` result. -/
def findIndexLabel (labels : List String) (x : String) : Option ℕ :=
  labels.findIdx? (fun l => l == x)

/-- `commitSelection` of `ChartContext.tsx`, as a pure function from the
dataset's x labels, the current selection and the current range to the new
range and the new selection state.  The initial guard tests truthiness of both
anchors and their equality; resolution failure of either label leaves the
range unchanged; the selection is always cleared. -/
def commitSelection (labels : List String) (sel : SelectionState) (range : RangeState) :
    RangeState × SelectionState :=
  if truthyLabel sel.startX = false ∨ truthyLabel sel.endX = false ∨ sel.startX = sel.endX then
    (range, clearedSelection)
  else
    match findIndexLabel labels (sel.startX.getD ""), findIndexLabel labels (sel.endX.getD "") with
    | some startIdx, some endIdx =>
      (⟨min (startIdx : ℤ) (endIdx : ℤ), max (startIdx : ℤ) (endIdx : ℤ)⟩, clearedSelection)
    | _, _ => (range, clearedSelection)

/-- `mergeRealtimePoint` of `useChartData.ts`: append the new point, then trim
from the head when the window exceeds `maxDataPoints`
(`updated.slice(updated.length - maxDataPoints)`).  The construction of the
appended point from the realtime response (`fillDataPointFromRealtime` over
`createEmptyDataPoint`) is abstracted as the already-built `newPoint`, since
only the list shape is at stake. -/
def mergeRealtimePoint {α : Type} (existingData : List α) (newPoint : α)
    (maxDataPoints : ℕ) : List α :=
  let updated := existingData ++ [newPoint]
  if maxDataPoints < updated.length then updated.drop (updated.length - maxDataPoints)
  else updated

/-- Error taxonomy of the spec's export adapter. -/
inductive ExportError
  | surfaceUnavailable
deriving DecidableEq

/-- Observable outcome of one export call: the error surfaced to the caller
(if any), whether capture was attempted, whether a download was triggered, and
the final value of the `isExporting` flag. -/
structure ExportOutcome where
  surfacedError : Option ExportError
  captureAttempted : Bool
  downloadTriggered : Bool
  isExportingAfter : Bool
deriving DecidableEq

/-- `executeExport` of the interactive-chart export hook (and the identical
`handleExportPNG`/`handleExportSVG` of `TrendChart.tsx`):
`if (!container) return;` precedes `setIsExporting(true)`; the try/catch logs
capture failures to the console and surfaces nothing; the finally block resets
the flag.  `surfaceBound` is whether `containerRef.current` is non-null,
`captureSucceeds` whether the `toPng`/`toSvg` promise resolves. -/
def executeExport (surfaceBound captureSucceeds : Bool) : ExportOutcome :=
  if surfaceBound = false then ⟨none, false, false, false⟩
  else ⟨none, true, captureSucceeds, false⟩

/-! ### Helper lemmas -/

/-- Evaluates a ceiling through a floor of the negation. -/
lemma ceil_eq_of_floor_neg {q : ℚ} {n : ℤ} (h : ⌊-q⌋ = -n) : ⌈q⌉ = n := by
  have h2 : ⌊-q⌋ = -⌈q⌉ := Int.floor_neg
  omega

/-- When `calculateNewRange` changes the range, neither rejection guard fired,
so the result is exactly the clamped pair. -/
lemma calculateNewRange_ne_eq (r : RangeState) (L : ℤ) (a f : ℚ)
    (h : calculateNewRange r L a f ≠ r) :
    calculateNewRange r L a f =
      ⟨max 0 (r.startIndex + ⌊a * f⌋), min (L - 1) (r.endIndex - ⌈a * (1 - f)⌉)⟩ := by
  unfold calculateNewRange at h ⊢
  dsimp only at h ⊢
  split_ifs at h ⊢ with h1 h2
  · exact absurd rfl h
  · exact absurd rfl h
  · rfl

/-- Closed-form evaluation of `calculateNewRange` once the floor and the
ceiling are known and both guards are known to fail. -/
lemma calculateNewRange_eval (s e L : ℤ) (a f : ℚ) (nf nc : ℤ)
    (hf : ⌊a * f⌋ = nf) (hc : ⌈a * (1 - f)⌉ = nc)
    (hg1 : ¬(e - s ≤ MIN_ZOOM_ITEMS ∧ 0 < a))
    (hg2 : ¬(min (L - 1) (e - nc) - MIN_ZOOM_ITEMS ≤ max 0 (s + nf))) :
    calculateNewRange ⟨s, e⟩ L a f = ⟨max 0 (s + nf), min (L - 1) (e - nc)⟩ := by
  unfold calculateNewRange
  dsimp only
  rw [hf, hc, if_neg hg1, if_neg hg2]

/-! ### C10: the effective minimum window after a successful zoom -/

/-- C10: whenever `calculateNewRange` returns a range different from its
input, the result satisfies `endIndex - startIndex ≥ MIN_ZOOM_ITEMS + 1`
(at least `MIN_ZOOM_ITEMS + 2 = 7` visible points), because the rejection
guards compare `end - start`, not the point count `end - start + 1`, against
`MIN_ZOOM_ITEMS`. -/
theorem calculateNewRange_min_window (r : RangeState) (L : ℤ) (a f : ℚ)
    (h : calculateNewRange r L a f ≠ r) :
    MIN_ZOOM_ITEMS + 1 ≤
      (calculateNewRange r L a f).endIndex - (calculateNewRange r L a f).startIndex := by
  unfold calculateNewRange at h ⊢
  dsimp only at h ⊢
  split_ifs at h ⊢ with h1 h2
  · exact absurd rfl h
  · exact absurd rfl h
  · dsimp only
    omega

/-- Witness for C10 at the 288-point zoom-in scenario: the zoom from
`(0, 287)` by `+14` at focus `1/2` changes the range, and the changed result
keeps `end - start ≥ 6`. -/
theorem calculateNewRange_min_window_witness :
    calculateNewRange ⟨0, 287⟩ 288 14 (1/2) ≠ ⟨0, 287⟩ ∧
    MIN_ZOOM_ITEMS + 1 ≤
      (calculateNewRange ⟨0, 287⟩ 288 14 (1/2)).endIndex -
        (calculateNewRange ⟨0, 287⟩ 288 14 (1/2)).startIndex := by
  have hf : ⌊(14 : ℚ) * (1/2)⌋ = 7 := by norm_num
  have hc : ⌈(14 : ℚ) * (1 - 1/2)⌉ = 7 := ceil_eq_of_floor_neg (by norm_num)
  have heval : calculateNewRange ⟨0, 287⟩ 288 14 (1/2) = ⟨7, 280⟩ := by
    have h := calculateNewRange_eval 0 287 288 14 (1/2) 7 7 hf hc
      (by unfold MIN_ZOOM_ITEMS; norm_num) (by unfold MIN_ZOOM_ITEMS; decide)
    simpa using h
  have hne : calculateNewRange ⟨0, 287⟩ 288 14 (1/2) ≠ ⟨0, 287⟩ := by
    rw [heval]; decide
  exact ⟨hne, calculateNewRange_min_window ⟨0, 287⟩ 288 14 (1/2) hne⟩

/-! ### C3: clampRange -/

/-- C3 counterexample: `clampRange` never raises a negative bound to `0`.
At range `(-3, 5)` and length `10` the claimed lower clamp does not happen:
the start bound stays `-3 < 0`. -/
theorem clampRange_counterexample :
    clampRange ⟨-3, 5⟩ 10 = ⟨-3, 5⟩ ∧ (clampRange ⟨-3, 5⟩ 10).startIndex < 0 := by
  constructor <;> decide

/-- C3 amended: for `dataLength ≥ 1`, `clampRange` lowers each bound past
`dataLength - 1` to `dataLength - 1`, and a range whose bounds are both
nonnegative is mapped into `[0, dataLength - 1]` on both bounds.  (Negative
bounds are returned unchanged: there is no lower clamp in the source.) -/
theorem clampRange_amended (s e L : ℤ) (hL : 1 ≤ L) (hs : 0 ≤ s) (he : 0 ≤ e) :
    0 ≤ (clampRange ⟨s, e⟩ L).startIndex ∧ (clampRange ⟨s, e⟩ L).startIndex ≤ L - 1 ∧
    0 ≤ (clampRange ⟨s, e⟩ L).endIndex ∧ (clampRange ⟨s, e⟩ L).endIndex ≤ L - 1 ∧
    (L - 1 < s → (clampRange ⟨s, e⟩ L).startIndex = L - 1) ∧
    (L - 1 < e → (clampRange ⟨s, e⟩ L).endIndex = L - 1) := by
  unfold clampRange
  dsimp only
  omega

/-- Witness for C3 amended at `(3, 12)` against length `10`: the stale end
bound is lowered to `9`, the start bound kept, both in `[0, 9]`. -/
theorem clampRange_amended_witness :
    (0 : ℤ) ≤ (clampRange ⟨3, 12⟩ 10).startIndex ∧
    (clampRange ⟨3, 12⟩ 10).endIndex ≤ 10 - 1 ∧
    (clampRange ⟨3, 12⟩ 10).endIndex = 10 - 1 := by
  have h := clampRange_amended 3 12 10 (by decide) (by decide) (by decide)
  exact ⟨h.1, h.2.2.2.1, h.2.2.2.2.2 (by decide)⟩

/-! ### C4: export against an unbound surface -/

/-- C4 counterexample: with the surface reference unbound, no
`SurfaceUnavailable` error (indeed no error at all) is surfaced to the caller:
the export call returns silently. -/
theorem export_unbound_counterexample :
    (executeExport false true).surfacedError = none ∧
    (executeExport false true).surfacedError ≠ some ExportError.surfaceUnavailable := by
  constructor <;> decide

/-- C4 amended: when the surface reference is unbound, the export aborts
before doing anything: no capture is attempted, no download is triggered, no
error is surfaced (a silent no-op rather than a distinguishable
`SurfaceUnavailable` result), and the `isExporting` flag is never set — in
particular it is not left set. -/
theorem export_unbound_amended (captureSucceeds : Bool) :
    executeExport false captureSucceeds = ⟨none, false, false, false⟩ := by
  cases captureSucceeds <;> rfl

/-! ### C2: the 288-point wheel-zoom scenario -/

/-- C2 counterexample: in the source, a negative `zoomAmount` grows the window
(zoom out), so applying `calculateNewRange` to `(0, 287)` over 288 points with
`zoomAmount = -14`, focus `1/2`, leaves the range at `(0, 287)` after clamping
— not approximately `(7, 280)`: both bounds are off by 7, beyond any rounding
slack of one index. -/
theorem zoom_scenario_counterexample :
    calculateNewRange ⟨0, 287⟩ 288 (-14) (1/2) = ⟨0, 287⟩ ∧
    1 < ((calculateNewRange ⟨0, 287⟩ 288 (-14) (1/2)).startIndex - 7).natAbs ∧
    1 < ((calculateNewRange ⟨0, 287⟩ 288 (-14) (1/2)).endIndex - 280).natAbs := by
  have hf : ⌊(-14 : ℚ) * (1/2)⌋ = -7 := by norm_num
  have hc : ⌈(-14 : ℚ) * (1 - 1/2)⌉ = -7 := ceil_eq_of_floor_neg (by norm_num)
  have heval : calculateNewRange ⟨0, 287⟩ 288 (-14) (1/2) = ⟨0, 287⟩ := by
    have h := calculateNewRange_eval 0 287 288 (-14) (1/2) (-7) (-7) hf hc
      (by unfold MIN_ZOOM_ITEMS; norm_num) (by unfold MIN_ZOOM_ITEMS; decide)
    simpa using h
  rw [heval]
  exact ⟨rfl, by decide, by decide⟩

/-- C2 amended: the shrink-by-14 scenario needs `zoomAmount = +14` (positive
amounts shrink the window in the source).  From `(0, 287)` over 288 points at
focus `1/2` the zoom yields exactly `(7, 280)`, and the reset
(`createInitialRange 288`) returns `(0, 287)`. -/
theorem zoom_scenario_amended :
    calculateNewRange ⟨0, 287⟩ 288 14 (1/2) = ⟨7, 280⟩ ∧
    createInitialRange 288 = ⟨0, 287⟩ := by
  have hf : ⌊(14 : ℚ) * (1/2)⌋ = 7 := by norm_num
  have hc : ⌈(14 : ℚ) * (1 - 1/2)⌉ = 7 := ceil_eq_of_floor_neg (by norm_num)
  have h := calculateNewRange_eval 0 287 288 14 (1/2) 7 7 hf hc
    (by unfold MIN_ZOOM_ITEMS; norm_num) (by unfold MIN_ZOOM_ITEMS; decide)
  exact ⟨by simpa using h, by decide⟩

/-! ### C8: realtime merge window -/

/-- C8: merging one realtime point into a dataset already at `maxDataPoints`
(with `maxDataPoints > 0`) evicts exactly the head and appends the new point
at the tail — the result is `existingData.tail ++ [newPoint]`, of length
exactly `maxDataPoints`, all middle elements preserved in order.  A dataset
shorter than `maxDataPoints` gets the point appended with no eviction. -/
theorem mergeRealtimePoint_spec {α : Type} (existingData : List α) (newPoint : α)
    (maxDataPoints : ℕ) (hmax : 0 < maxDataPoints) :
    (existingData.length = maxDataPoints →
      mergeRealtimePoint existingData newPoint maxDataPoints =
        existingData.tail ++ [newPoint] ∧
      (mergeRealtimePoint existingData newPoint maxDataPoints).length = maxDataPoints) ∧
    (existingData.length < maxDataPoints →
      mergeRealtimePoint existingData newPoint maxDataPoints = existingData ++ [newPoint]) := by
  constructor
  · intro hlen
    have hkey : mergeRealtimePoint existingData newPoint maxDataPoints =
        existingData.tail ++ [newPoint] := by
      unfold mergeRealtimePoint
      dsimp only
      rw [if_pos (by simp [hlen])]
      have hdrop : (existingData ++ [newPoint]).length - maxDataPoints = 1 := by
        simp [hlen]
      rw [hdrop, List.drop_append_of_le_length (by omega), List.drop_one]
    refine ⟨hkey, ?_⟩
    rw [hkey]
    simp [List.length_tail]
    omega
  · intro hlen
    unfold mergeRealtimePoint
    dsimp only
    rw [if_neg (by simp; omega)]

/-- Witness for C8: a window of 3 points at capacity 3 absorbs point `4` by
evicting the head, and a window of 2 points appends without eviction. -/
theorem mergeRealtimePoint_spec_witness :
    mergeRealtimePoint [1, 2, 3] 4 3 = [2, 3, 4] ∧
    (mergeRealtimePoint [1, 2, 3] 4 3).length = 3 ∧
    mergeRealtimePoint [1, 2] 4 3 = [1, 2, 4] := by
  have h1 := (mergeRealtimePoint_spec [1, 2, 3] 4 3 (by decide)).1 (by decide)
  have h2 := (mergeRealtimePoint_spec [1, 2] 4 3 (by decide)).2 (by decide)
  exact ⟨h1.1, h1.2, h2⟩

/-! ### C7 and C9: selection commit -/

/-- C7 counterexample: the anchor label `""` and the cursor label `"b"`
differ, and both resolve to dataset indices (`0` and `1`), yet the commit
leaves the range unchanged at `(0, 0)` instead of setting `(0, 1)`: the
initial guard tests JavaScript truthiness, and `""` is falsy. -/
theorem commitSelection_counterexample :
    (some "" : Option String) ≠ some "b" ∧
    findIndexLabel ["", "b"] "" = some 0 ∧
    findIndexLabel ["", "b"] "b" = some 1 ∧
    commitSelection ["", "b"] ⟨some "", some "b", true⟩ ⟨0, 0⟩ = (⟨0, 0⟩, clearedSelection) ∧
    (⟨0, 0⟩ : RangeState) ≠ ⟨min (0 : ℤ) 1, max (0 : ℤ) 1⟩ := by
  refine ⟨by decide, by decide, by decide, ?_, by decide⟩
  unfold commitSelection
  rw [if_pos (Or.inl (by decide))]

/-- C7 amended: the selection is always cleared after a commit; when both
anchor labels are truthy (non-null and non-empty), differ, and both resolve
to dataset indices, the range becomes `(min, max)` of the two indices
regardless of drag direction; when the anchors are equal, either anchor is
falsy (null or the empty string — this is the amendment), or either label
fails to resolve, the range is left unchanged. -/
theorem commitSelection_amended (labels : List String) (sel : SelectionState)
    (range : RangeState) :
    (commitSelection labels sel range).2 = clearedSelection ∧
    (∀ sx ex i j, sel.startX = some sx → sel.endX = some ex → sx ≠ "" → ex ≠ "" →
      sx ≠ ex → findIndexLabel labels sx = some i → findIndexLabel labels ex = some j →
      (commitSelection labels sel range).1 = ⟨min (i : ℤ) j, max (i : ℤ) j⟩) ∧
    ((sel.startX = sel.endX ∨ truthyLabel sel.startX = false ∨ truthyLabel sel.endX = false ∨
      findIndexLabel labels (sel.startX.getD "") = none ∨
      findIndexLabel labels (sel.endX.getD "") = none) →
      (commitSelection labels sel range).1 = range) := by
  refine ⟨?_, ?_, ?_⟩
  · unfold commitSelection
    split_ifs with hguard
    · rfl
    · rcases h1 : findIndexLabel labels (sel.startX.getD "") with _ | i <;>
        rcases h2 : findIndexLabel labels (sel.endX.getD "") with _ | j <;>
        simp [h1, h2]
  · intro sx ex i j hsx hex hsxne hexne hne hfi hfj
    unfold commitSelection
    rw [if_neg]
    · rw [hsx, hex]
      simp only [Option.getD_some]
      rw [hfi, hfj]
    · rw [hsx, hex]
      simp [truthyLabel, hsxne, hexne, hne]
  · intro h
    unfold commitSelection
    split_ifs with hguard
    · rfl
    · push_neg at hguard
      rcases h with h | h | h | h | h
    -- the guard rejected none of its three disjuncts, so only resolution
    -- failure remains; reduce the match on the failing lookup
      · exact absurd h hguard.2.2
      · exact absurd h hguard.1
      · exact absurd h hguard.2.1
      · rcases h2 : findIndexLabel labels (sel.endX.getD "") with _ | j <;> simp [h, h2]
      · rcases h1 : findIndexLabel labels (sel.startX.getD "") with _ | i <;> simp [h, h1]

/-- Witness for C7 amended: over the labels `a, b, c`, dragging from `"c"`
back to `"a"` commits the sorted range `(0, 2)` and clears the selection. -/
theorem commitSelection_amended_witness :
    (commitSelection ["a", "b", "c"] ⟨some "c", some "a", true⟩ ⟨1, 1⟩).2 = clearedSelection ∧
    (commitSelection ["a", "b", "c"] ⟨some "c", some "a", true⟩ ⟨1, 1⟩).1 =
      ⟨min (2 : ℤ) 0, max (2 : ℤ) 0⟩ := by
  obtain ⟨h1, h2, -⟩ := commitSelection_amended ["a", "b", "c"] ⟨some "c", some "a", true⟩ ⟨1, 1⟩
  exact ⟨h1, h2 "c" "a" 2 0 rfl rfl (by decide) (by decide) (by decide)
    (by decide) (by decide)⟩

/-- C9: a falsy anchor or cursor label (`null`, or the empty string) makes
`commitSelection` discard the selection and leave the range unchanged, for
every dataset — even one in which the empty-string label occurs and differs
from the other anchor — because the guard tests truthiness, not presence. -/
theorem commitSelection_falsy_discards (labels : List String) (sel : SelectionState)
    (range : RangeState)
    (h : sel.startX = some "" ∨ sel.startX = none ∨ sel.endX = some "" ∨ sel.endX = none) :
    commitSelection labels sel range = (range, clearedSelection) := by
  unfold commitSelection
  rw [if_pos]
  rcases h with h | h | h | h
  · exact Or.inl (by simp [truthyLabel, h])
  · exact Or.inl (by simp [truthyLabel, h])
  · exact Or.inr (Or.inl (by simp [truthyLabel, h]))
  · exact Or.inr (Or.inl (by simp [truthyLabel, h]))

/-- Witness for C9: the dataset contains the empty label at index 0 and `"b"`
at index 1; the anchors `""` and `"b"` differ and both occur, yet the commit
leaves the range `(0, 5)` unchanged and clears the selection. -/
theorem commitSelection_falsy_discards_witness :
    (some "" : Option String) ≠ some "b" ∧
    findIndexLabel ["", "b"] "" = some 0 ∧
    findIndexLabel ["", "b"] "b" = some 1 ∧
    commitSelection ["", "b"] ⟨some "", some "b", true⟩ ⟨0, 5⟩ = (⟨0, 5⟩, clearedSelection) :=
  ⟨by decide, by decide, by decide,
    commitSelection_falsy_discards ["", "b"] ⟨some "", some "b", true⟩ ⟨0, 5⟩ (Or.inl rfl)⟩

/-! ### C1: the P1 bounds invariant -/

/-- A zoom step preserves the bounds invariant: an accepted result is clamped
into bounds and its guard enforces `end - start > MIN_ZOOM_ITEMS`. -/
lemma calculateNewRange_preserves_invariant (L : ℤ) (r : RangeState) (a f : ℚ)
    (h : rangeInvariant L r) : rangeInvariant L (calculateNewRange r L a f) := by
  unfold calculateNewRange
  unfold rangeInvariant MIN_ZOOM_ITEMS at h ⊢
  dsimp only
  split_ifs with h1 h2
  · exact h
  · exact h
  · dsimp only
    omega

/-- A pan step preserves the bounds invariant: the shift is clamped by the
two sequential edge guards and the window size is carried over. -/
lemma applyPan_preserves_invariant (L : ℤ) (r : RangeState) (d : ℚ)
    (h : rangeInvariant L r) : rangeInvariant L (applyRangeOp L r (RangeOp.pan d)) := by
  unfold applyRangeOp calculatePan
  dsimp only
  unfold rangeInvariant MIN_ZOOM_ITEMS at h ⊢
  split_ifs with h0 h1 h2 <;> dsimp only <;> omega

/-- Folding any operation sequence preserves the bounds invariant. -/
lemma applyRangeOps_preserves_invariant (L : ℤ) (ops : List RangeOp) (r : RangeState)
    (h : rangeInvariant L r) : rangeInvariant L (applyRangeOps L ops r) := by
  induction ops generalizing r with
  | nil => exact h
  | cons op ops ih =>
    unfold applyRangeOps at ih ⊢
    rw [List.foldl_cons]
    apply ih
    cases op with
    | zoom a f => exact calculateNewRange_preserves_invariant L r a f h
    | pan d => exact applyPan_preserves_invariant L r d h

/-- C1: for every dataset length `L ≥ MIN_ZOOM_ITEMS` and every finite
sequence of zoom (`calculateNewRange`, focus percentage in `[0, 1]`) and pan
(`calculatePan`) operations applied from `createInitialRange L`, the
resulting range satisfies `0 ≤ start ≤ end ≤ L - 1` and
`end - start + 1 ≥ MIN_ZOOM_ITEMS`. -/
theorem rangeOps_bounds_invariant (L : ℤ) (hL : MIN_ZOOM_ITEMS ≤ L) (ops : List RangeOp)
    (hops : ∀ op ∈ ops, opFocusInRange op) :
    rangeInvariant L (applyRangeOps L ops (createInitialRange L)) := by
  apply applyRangeOps_preserves_invariant
  unfold MIN_ZOOM_ITEMS at hL
  unfold rangeInvariant createInitialRange MIN_ZOOM_ITEMS
  dsimp only
  omega

/-- Witness for C1 over 288 points: a wheel zoom by `14` at focus `1/2`
followed by a drag pan of accumulated delta `31` keeps the invariant. -/
theorem rangeOps_bounds_invariant_witness :
    MIN_ZOOM_ITEMS ≤ (288 : ℤ) ∧
    rangeInvariant 288
      (applyRangeOps 288 [RangeOp.zoom 14 (1/2), RangeOp.pan 31] (createInitialRange 288)) := by
  refine ⟨by decide, ?_⟩
  apply rangeOps_bounds_invariant 288 (by decide)
  intro op hop
  simp only [List.mem_cons, List.not_mem_nil, or_false] at hop
  rcases hop with rfl | rfl
  · exact ⟨by norm_num, by norm_num⟩
  · exact trivial

/-! ### C5: pan edge clamp preserves the window size -/

/-- C5: for a range smaller than the dataset (`e - s < L - 1`), a pan that
returns a result preserves the window size `e - s` exactly; a shift that
would cross the left (right) edge lands flush at `0` (`L - 1`), and a shift
that stays inside the dataset moves both bounds by the same
`-panSteps` count. -/
theorem calculatePan_edge_clamp (s e : ℤ) (d : ℚ) (L : ℤ)
    (hwin : e - s < L - 1) (r' : ℤ × ℤ) (rem : ℚ)
    (h : calculatePan (s, e) d L = some (r', rem)) :
    r'.2 - r'.1 = e - s ∧
    (s - panSteps d < 0 → r'.1 = 0) ∧
    (L - 1 < e - panSteps d → r'.2 = L - 1) ∧
    (0 ≤ s - panSteps d → e - panSteps d ≤ L - 1 →
      r' = (s - panSteps d, e - panSteps d)) := by
  unfold calculatePan at h
  dsimp only at h
  split_ifs at h with h0 h1 h2 h3
  · dsimp only at h2
    exact absurd h2 (by omega)
  · rw [Option.some.injEq, Prod.mk.injEq] at h
    obtain ⟨hr, -⟩ := h
    subst hr
    refine ⟨by dsimp only; omega, fun _ => rfl, ?_, ?_⟩
    · intro hc
      exact absurd hc (by omega)
    · intro hc1 _
      exact absurd hc1 (by omega)
  · dsimp only at h3
    rw [Option.some.injEq, Prod.mk.injEq] at h
    obtain ⟨hr, -⟩ := h
    subst hr
    refine ⟨by dsimp only; omega, ?_, fun _ => rfl, ?_⟩
    · intro hc
      exact absurd hc (by omega)
    · intro _ hc2
      exact absurd hc2 (by omega)
  · dsimp only at h3
    rw [Option.some.injEq, Prod.mk.injEq] at h
    obtain ⟨hr, -⟩ := h
    subst hr
    refine ⟨by dsimp only; omega, ?_, ?_, ?_⟩
    · intro hc
      exact absurd hc (by omega)
    · intro hc
      exact absurd hc (by omega)
    · intro _ _
      rfl

/-- Witness for C5: a window `(2, 5)` over 10 points panned with accumulated
delta `31` (two whole 15-pixel steps leftward) lands flush at `(0, 3)` with
remainder `1`, size `3` preserved. -/
theorem calculatePan_edge_clamp_witness :
    ((5 : ℤ) - 2 < 10 - 1) ∧
    calculatePan (2, 5) 31 10 = some ((0, 3), 1) ∧
    ((0 : ℤ), (3 : ℤ)).2 - ((0 : ℤ), (3 : ℤ)).1 = 5 - 2 := by
  have hsteps : panSteps 31 = 2 := by
    unfold panSteps jsTrunc DRAG_THRESHOLD
    rw [if_pos (by norm_num)]
    norm_num
  have hEval : calculatePan (2, 5) 31 10 = some ((0, 3), 1) := by
    unfold calculatePan
    dsimp only
    rw [hsteps]
    norm_num [DRAG_THRESHOLD]
  exact ⟨by norm_num, hEval, (calculatePan_edge_clamp 2 5 31 10 (by norm_num) (0, 3) 1 hEval).1⟩

/-! ### C6: zoom-in then zoom-out and the window size -/

/-- C6 counterexample: with the fractional zoom amount `5/2` at focus `0`,
the zoom-in from `(10, 100)` over 200 points succeeds with no bound clamped
(`10 + ⌊5/2·0⌋ = 10 ≥ 0`, `100 - ⌈5/2·1⌉ = 97 ≤ 199`), the zoom-out by
`-(5/2)` succeeds with no bound clamped, yet the final window size `89`
differs from the original `90`: the floor/ceiling pair consumes one extra
index when `a·f` is integral but `a·(1-f)` is not. -/
theorem zoom_inverse_counterexample :
    (0 : ℚ) < 5/2 ∧
    calculateNewRange ⟨10, 100⟩ 200 (5/2) 0 = ⟨10, 97⟩ ∧
    (⟨10, 97⟩ : RangeState) ≠ ⟨10, 100⟩ ∧
    0 ≤ (10 : ℤ) + ⌊(5/2 : ℚ) * 0⌋ ∧ (100 : ℤ) - ⌈(5/2 : ℚ) * (1 - 0)⌉ ≤ 200 - 1 ∧
    calculateNewRange ⟨10, 97⟩ 200 (-(5/2)) 0 = ⟨10, 99⟩ ∧
    (⟨10, 99⟩ : RangeState) ≠ ⟨10, 97⟩ ∧
    0 ≤ (10 : ℤ) + ⌊(-(5/2) : ℚ) * 0⌋ ∧ (97 : ℤ) - ⌈(-(5/2) : ℚ) * (1 - 0)⌉ ≤ 200 - 1 ∧
    (99 : ℤ) - 10 ≠ 100 - 10 := by
  have hf1 : ⌊(5/2 : ℚ) * 0⌋ = 0 := by norm_num
  have hc1 : ⌈(5/2 : ℚ) * (1 - 0)⌉ = 3 := ceil_eq_of_floor_neg (by norm_num)
  have hf2 : ⌊(-(5/2) : ℚ) * 0⌋ = 0 := by norm_num
  have hc2 : ⌈(-(5/2) : ℚ) * (1 - 0)⌉ = -2 := ceil_eq_of_floor_neg (by norm_num)
  have hx1 : calculateNewRange ⟨10, 100⟩ 200 (5/2) 0 = ⟨10, 97⟩ := by
    have h := calculateNewRange_eval 10 100 200 (5/2) 0 0 3 hf1 hc1
      (by unfold MIN_ZOOM_ITEMS; norm_num) (by unfold MIN_ZOOM_ITEMS; decide)
    simpa using h
  have hx2 : calculateNewRange ⟨10, 97⟩ 200 (-(5/2)) 0 = ⟨10, 99⟩ := by
    have h := calculateNewRange_eval 10 97 200 (-(5/2)) 0 0 (-2) hf2 hc2
      (by unfold MIN_ZOOM_ITEMS; norm_num) (by unfold MIN_ZOOM_ITEMS; decide)
    simpa using h
  refine ⟨by norm_num, hx1, by decide, by rw [hf1]; decide, by rw [hc1]; decide, hx2, by decide,
    by rw [hf2]; decide, by rw [hc2]; decide, by decide⟩

/-- C6 amended: zoom-in by `a` then zoom-out by `a` at the same focus
restores the window size exactly, provided both calls succeed with neither
bound clamped and the amounts split on both sides of the focus in the same
way: `⌈a·f⌉ - ⌊a·f⌋ = ⌈a·(1-f)⌉ - ⌊a·(1-f)⌋`, i.e. `a·f` and `a·(1-f)` are
both integral or both non-integral.  Every integer `a` satisfies this at any
focus; the fractional amounts the wheel handler feeds in
(`currentLength * zoomSpeed * direction`) can break it — e.g. at focus `0`,
where `a·f = 0` is integral but `a·(1-f)` need not be — and there the
original claim fails, as the counterexample shows. -/
theorem zoom_inverse_amended (r : RangeState) (L : ℤ) (a f : ℚ)
    (ha : 0 < a) (hf0 : 0 ≤ f) (hf1 : f ≤ 1)
    (hd : ⌈a * f⌉ - ⌊a * f⌋ = ⌈a * (1 - f)⌉ - ⌊a * (1 - f)⌋)
    (h1 : calculateNewRange r L a f ≠ r)
    (hnc1 : 0 ≤ r.startIndex + ⌊a * f⌋)
    (hnc2 : r.endIndex - ⌈a * (1 - f)⌉ ≤ L - 1)
    (h2 : calculateNewRange (calculateNewRange r L a f) L (-a) f ≠ calculateNewRange r L a f)
    (hnc3 : 0 ≤ (calculateNewRange r L a f).startIndex + ⌊-a * f⌋)
    (hnc4 : (calculateNewRange r L a f).endIndex - ⌈-a * (1 - f)⌉ ≤ L - 1) :
    (calculateNewRange (calculateNewRange r L a f) L (-a) f).endIndex -
      (calculateNewRange (calculateNewRange r L a f) L (-a) f).startIndex =
      r.endIndex - r.startIndex := by
  have e1 := calculateNewRange_ne_eq r L a f h1
  rw [max_eq_right hnc1, min_eq_right hnc2] at e1
  have e2 := calculateNewRange_ne_eq (calculateNewRange r L a f) L (-a) f h2
  rw [max_eq_right hnc3, min_eq_right hnc4] at e2
  have k1 : ⌊-a * f⌋ = -⌈a * f⌉ := by rw [neg_mul]; exact Int.floor_neg
  have k2 : ⌈-a * (1 - f)⌉ = -⌊a * (1 - f)⌋ := by rw [neg_mul]; exact Int.ceil_neg
  rw [e2, e1]
  dsimp only
  rw [k1, k2]
  omega

/-- Witness for C6 amended: the integer zoom amount `3` at focus `1/2` from
`(10, 100)` over 200 points goes to `(11, 98)` and back out to `(9, 99)`,
both steps unclamped, with the size `90` restored. -/
theorem zoom_inverse_amended_witness :
    (calculateNewRange (calculateNewRange ⟨10, 100⟩ 200 3 (1/2)) 200 (-3) (1/2)).endIndex -
      (calculateNewRange (calculateNewRange ⟨10, 100⟩ 200 3 (1/2)) 200 (-3) (1/2)).startIndex =
      (⟨10, 100⟩ : RangeState).endIndex - (⟨10, 100⟩ : RangeState).startIndex := by
  have hf1 : ⌊(3 : ℚ) * (1/2)⌋ = 1 := by norm_num
  have hc1 : ⌈(3 : ℚ) * (1 - 1/2)⌉ = 2 := ceil_eq_of_floor_neg (by norm_num)
  have hc2 : ⌈(3 : ℚ) * (1/2)⌉ = 2 := ceil_eq_of_floor_neg (by norm_num)
  have hf2 : ⌊(3 : ℚ) * (1 - 1/2)⌋ = 1 := by norm_num
  have hf3 : ⌊(-3 : ℚ) * (1/2)⌋ = -2 := by norm_num
  have hc3 : ⌈(-3 : ℚ) * (1 - 1/2)⌉ = -1 := ceil_eq_of_floor_neg (by norm_num)
  have hr1 : calculateNewRange ⟨10, 100⟩ 200 3 (1/2) = ⟨11, 98⟩ := by
    have h := calculateNewRange_eval 10 100 200 3 (1/2) 1 2 hf1 hc1
      (by unfold MIN_ZOOM_ITEMS; norm_num) (by unfold MIN_ZOOM_ITEMS; decide)
    simpa using h
  have hr2 : calculateNewRange ⟨11, 98⟩ 200 (-3) (1/2) = ⟨9, 99⟩ := by
    have h := calculateNewRange_eval 11 98 200 (-3) (1/2) (-2) (-1) hf3 hc3
      (by unfold MIN_ZOOM_ITEMS; norm_num) (by unfold MIN_ZOOM_ITEMS; decide)
    simpa using h
  exact zoom_inverse_amended ⟨10, 100⟩ 200 3 (1/2) (by norm_num) (by norm_num) (by norm_num)
    (by rw [hc2, hf1, hc1, hf2]) (by rw [hr1]; decide)
    (by rw [hf1]; decide) (by rw [hc1]; decide)
    (by rw [hr1, hr2]; decide) (by rw [hr1, hf3]; decide) (by rw [hr1, hc3]; decide)
